import Mathlib

/-
Shallow embedding of the core of the `libhentai` client:

 * `src/backend/ehentai/explorer.rs` — `percent_encode`, the lazy search
   stream `Page` (construction, `len`, `skip`, the `Stream::poll_next`
   implementation);
 * `src/ehentai/article.rs` — `Article::load_image_list`,
   `Article::load_image`, `Article::load_all_comments`.

External effects (the hyper transport plus the site-specific `parser`
extraction functions, which are not part of the sources) are modelled as
explicit oracles passed to each operation: a fetch of a page either fails
with a transport error or yields a document, and a document is represented
by the record of what each parser extraction returns on it.  Machine
integers (`usize`) are modelled as `Nat` with explicit wrapping (mod 2^64)
exactly where the source can underflow.  Every operation additionally
reports the number of network round trips it performed, so that
"performs zero fetches" claims are directly statable.
-/

/-- Failures visible to this layer: a transport failure (network / non-2xx,
from hyper) or a parse failure (a `parser::*` extraction finding the
document malformed).  Payloads make distinct failures distinguishable. -/
inductive Err where
  | transport (code : Nat)
  | parse (what : String)
deriving DecidableEq, Repr

instance {ε α : Type} [DecidableEq ε] [DecidableEq α] : DecidableEq (Except ε α) := fun x y =>
  match x, y with
  | .error a, .error b =>
    if h : a = b then .isTrue (by rw [h]) else .isFalse (by intro hh; cases hh; exact h rfl)
  | .error _, .ok _ => .isFalse (fun hh => Except.noConfusion hh)
  | .ok _, .error _ => .isFalse (fun hh => Except.noConfusion hh)
  | .ok a, .ok b =>
    if h : a = b then .isTrue (by rw [h]) else .isFalse (by intro hh; cases hh; exact h rfl)

/-- The modulus of Rust's 64-bit `usize`. -/
def USIZE : Nat := 2 ^ 64

/-- Wrapping (release-mode) `usize` subtraction `a - b`.  For `1 ≤ a < 2^64`
and `b = 1` this agrees with `Nat` subtraction; for `a = 0`, `b = 1` it
wraps to `2^64 - 1` (a debug build would instead abort on overflow). -/
def usizeSub (a b : Nat) : Nat := (a + (USIZE - b % USIZE)) % USIZE

/-- explorer.rs: is `b` in the unreserved set matched by the first arm of
`percent_encode` (`b'A'..=b'Z' | b'a'..=b'z' | b'0'..=b'9' | b'-' | b'_'
| b'.' | b'~'`)?  Byte values: `A..Z` = 65..90, `a..z` = 97..122,
`0..9` = 48..57, `-` = 45, `_` = 95, `.` = 46, `~` = 126. -/
def isUnreserved (b : Nat) : Bool :=
  (65 ≤ b && b ≤ 90) || (97 ≤ b && b ≤ 122) || (48 ≤ b && b ≤ 57)
    || b == 45 || b == 95 || b == 46 || b == 126

/-- One uppercase hexadecimal digit, as produced by Rust's `{:X}` formatting:
`0..9` map to `'0'..'9'`, `10..15` to `'A'..'F'`. -/
def hexDigit (n : Nat) : Char :=
  if n < 10 then Char.ofNat (48 + n) else Char.ofNat (55 + n)

/-- explorer.rs `percent_encode`, per input byte: an unreserved byte is
pushed unchanged (`res.push(*byte as char)`); any other byte is rendered
`format!("%\x7b:02X\x7d", *byte)`, i.e. `'%'` followed by the two uppercase
hex digits of the byte (high nibble then low nibble). -/
def percentEncodeByte (b : Nat) : List Char :=
  if isUnreserved b then [Char.ofNat b]
  else ['%', hexDigit (b / 16), hexDigit (b % 16)]

/-- explorer.rs `percent_encode`: the loop over `from.as_bytes()`,
concatenating the per-byte encodings in order. -/
def percent_encode (bytes : List Nat) : List Char :=
  (bytes.map percentEncodeByte).flatten

/-- The sixteen characters Rust's uppercase-hex formatting can emit. -/
def hexUpperChars : List Char := "0123456789ABCDEF".toList

/-- Modelled from the spec: the fields of a `PendingArticle` (the
`ResultSummary` of the spec) as produced by `parser::article_list`.  The
defining module `backend/ehentai/article.rs` is not among the sources;
per §3 a summary carries a locator and display fields, and no claim here
inspects more than its identity. -/
structure PendingArticle where
  path : String
  title : String
deriving DecidableEq, Repr

/-- A fetched search-results document, represented by what the two parser
extractions used in `Page::poll_next` return on it:
`parser::search_results(&doc)` and `parser::article_list(&doc)`.  The
`Option` inside `article_list` mirrors the Rust return type
`Result<Option<Vec<PendingArticle>>, ErrorBox>`, evidenced by the
`.transpose()` applied to it in `poll_next`. -/
structure SearchDoc where
  search_results : Except Err Nat
  article_list : Except Err (Option (List PendingArticle))
deriving DecidableEq, Repr

/-- Modelled from the spec: well-formedness of the missing
`parser::article_list` (parser.rs is not among the sources).  Per §6,
`result_list(doc)` is total over a well-formed document and returns the
(possibly empty) list of result summaries, failing with a `ParseError` on a
malformed one; it has no third "no list present" outcome, so a parser
outcome is never `Ok(None)`. -/
def articleListWellFormed (doc : SearchDoc) : Prop :=
  doc.article_list ≠ Except.ok none

/-- explorer.rs `struct Page<'a>`: the borrowed client handle (modelled as
an opaque identifier), the next page index, the last-seen total result
count, the query string, and the in-flight fetch.  A live task is modelled
by the page index its uri was built from (`uri()` reads `self.page` at task
creation time); `none` is an idle sequence. -/
structure Page where
  client : Nat
  page : Nat
  results : Option Nat
  query : String
  task : Option Nat
deriving DecidableEq, Repr

/-- explorer.rs `Page::new`: starts idle (`task: None`) with no known
result count (`results: None`). -/
def Page.new (client : Nat) (page : Nat) (query : String) : Page :=
  { client := client, page := page, results := none, query := query, task := none }

/-- explorer.rs `Page::uri`: `format!("?page=\x7b\x7d&\x7b\x7d", self.page,
self.query)` on host `e-hentai.org` (scheme and authority omitted: they are
constant). -/
def Page.uri (p : Page) : String :=
  "?page=" ++ toString p.page ++ "&" ++ p.query

/-- explorer.rs `Page::len`: `self.results.map(|n| (n - 1) /
ARTICLES_PER_PAGE + 1)` with `ARTICLES_PER_PAGE = 25`.  The subtraction is
the wrapping `usize` one; the source comments `self.results must not be 0`. -/
def Page.len (p : Page) : Option Nat :=
  p.results.map (fun n => usizeSub n 1 / 25 + 1)

/-- explorer.rs `Page::skip`: `self.page += n; self.task = None; self`. -/
def Page.skip (p : Page) (n : Nat) : Page :=
  { p with page := p.page + n, task := none }

/-- Rust's `Result::transpose` specialised to our types:
`Ok(None) ↦ None`, `Ok(Some(v)) ↦ Some(Ok(v))`, `Err(e) ↦ Some(Err(e))`. -/
def transposeEO {α : Type} : Except Err (Option α) → Option (Except Err α)
  | .error e => some (.error e)
  | .ok none => none
  | .ok (some v) => some (.ok v)

/-- explorer.rs `Stream::poll_next` for `Page`, modelling a poll in which
the in-flight fetch completes (a pending poll changes no observable state
beyond creating the task).  `fetch` is the transport+HTML oracle, indexed
by the page number the task's uri was built from.  Mirrors the source
control flow: if idle, a task is created for the current `page`; on
completion `task` is cleared; a transport error is yielded with no other
state change; on a fetched document `page` is incremented FIRST, then
`parser::search_results` is consulted (its failure is yielded with `page`
already incremented), on success `results` is overwritten, and
`parser::article_list(&doc).transpose()` is yielded.  The third component
is the page index whose uri was fetched. -/
def poll_next (fetch : Nat → Except Err SearchDoc) (p : Page) :
    Option (Except Err (List PendingArticle)) × Page × Nat :=
  let startPage := p.task.getD p.page
  match fetch startPage with
  | .error e => (some (.error e), { p with task := none }, startPage)
  | .ok doc =>
    match doc.search_results with
    | .error e => (some (.error e), { p with task := none, page := p.page + 1 }, startPage)
    | .ok n =>
      (transposeEO doc.article_list,
       { p with task := none, page := p.page + 1, results := some n }, startPage)

/-- The pages-needed computation shared by `Page::len` (`size = 25`,
explorer.rs) and `Article::load_image_list` (`size = 40`, article.rs):
`1 + (n - 1) / size` with wrapping `usize` subtraction. -/
def pagesNeeded (n size : Nat) : Nat := 1 + usizeSub n 1 / size

/-- article.rs `struct Vote`. -/
structure Vote where
  score : Int
  voters : List (String × Int)
  omitted : Nat
deriving DecidableEq, Repr

/-- article.rs `struct Comment` (`vote` is `None` for an uploader comment). -/
structure Comment where
  posted : String
  edited : Option String
  vote : Option Vote
  writer : String
  content : String
deriving DecidableEq, Repr

/-- A fetched gallery sub-page (`\x7bpath\x7d?p=\x7bi\x7d`), represented by
what `parser::image_list(&doc)` returns on it. -/
structure PageDoc where
  image_list : Except Err (List String)
deriving DecidableEq, Repr

/-- A fetched image-viewer page, represented by what `parser::image(&doc)`
(the single direct image URL) returns on it. -/
structure ViewerDoc where
  image : Except Err String
deriving DecidableEq, Repr

/-- A fetched all-comments page (`\x7bpath\x7d?hc=1`), represented by what
`parser::comments(&doc)` returns on it. -/
structure CommentsDoc where
  comments : Except Err (List Comment)
deriving DecidableEq, Repr

/-- article.rs `struct Article`, restricted to the state its loader
operations read or write: `meta.length` (the only metadata field those
operations consult — `meta.path` only feeds uri construction, which is
abstracted by indexing the fetch oracles with the page number), the
accumulated image-viewer locators `links`, and `comments`.  The shared
`client` handle carries no state observable here. -/
structure Article where
  length : Nat
  links : List String
  comments : List Comment
deriving DecidableEq, Repr

/-- article.rs `IMAGES_PER_PAGE` constant of `load_image_list`. -/
def IMAGES_PER_PAGE : Nat := 40

/-- article.rs `load_image_list`: `page_len = 1 + (self.meta.length - 1) /
IMAGES_PER_PAGE` (wrapping `usize` subtraction, as in `Page::len`). -/
def pageLenOf (length : Nat) : Nat := 1 + usizeSub length 1 / IMAGES_PER_PAGE

/-- One iteration's fallible part in the `load_image_list` loop: the fetch
of sub-page `i` (`self.client.get_html(...)?`, transport failure) followed
by `parser::image_list(&doc)?` (parse failure). -/
def fetchPage (env : Nat → Except Err PageDoc) (i : Nat) : Except Err (List String) :=
  match env i with
  | .error e => .error e
  | .ok doc => doc.image_list

/-- The `for i in 1..page_len` loop body of `load_image_list`, recursing on
the number `k` of iterations left, starting at page `i`, carrying the
accumulated `links`.  Each successful iteration appends that page's
extracted locators (`self.links.extend(...)`); the first failure aborts the
loop with the error (`?`), keeping the links accumulated so far.  The last
component counts the fetches performed. -/
def loadPages (env : Nat → Except Err PageDoc) :
    List String → Nat → Nat → Except Err Unit × List String × Nat
  | links, _, 0 => (.ok (), links, 0)
  | links, i, k + 1 =>
    match fetchPage env i with
    | .error e => (.error e, links, 1)
    | .ok vec =>
      let r := loadPages env (links ++ vec) (i + 1) k
      (r.1, r.2.1, r.2.2 + 1)

/-- article.rs `Article::load_image_list`: early `Ok(())` when
`self.links.len() == self.meta().length`; otherwise computes `page_len`
and runs the loop `for i in 1..page_len` (page 0 was parsed at `new`).
Returns the outcome, the updated article, and the number of fetches. -/
def Article.load_image_list (env : Nat → Except Err PageDoc) (a : Article) :
    Except Err Unit × Article × Nat :=
  if a.links.length = a.length then (.ok (), a, 0)
  else
    let r := loadPages env a.links 1 (pageLenOf a.length - 1)
    (r.1, { a with links := r.2.1 }, r.2.2)

/-- How a call of article.rs `Article::load_image` ends: `halted` models the
`panic!(":P")` on an out-of-range index (abnormal termination of the
process, not a returned value); otherwise the image bytes or a typed error. -/
inductive ImageOutcome where
  | halted
  | bytes (data : List Nat)
  | failed (e : Err)
deriving DecidableEq, Repr

/-- article.rs `Article::load_image`: the guard `if index >=
self.links.len()` executes `panic!(":P")` before any network activity;
otherwise the viewer page at `links[index]` is fetched and parsed
(`parser::image`), then the direct image URL is fetched for its bytes.
`getHtml` and `getImage` are the two transport oracles, keyed by locator;
the second component counts the fetches performed. -/
def Article.load_image (getHtml : String → Except Err ViewerDoc)
    (getImage : String → Except Err (List Nat))
    (a : Article) (index : Nat) : ImageOutcome × Nat :=
  if a.links.length ≤ index then (.halted, 0)
  else
    match getHtml (a.links.getD index "") with
    | .error e => (.failed e, 1)
    | .ok doc =>
      match doc.image with
      | .error e => (.failed e, 1)
      | .ok path =>
        match getImage path with
        | .error e => (.failed e, 2)
        | .ok data => (.bytes data, 2)

/-- article.rs `Article::load_all_comments`: one fetch of
`\x7bpath\x7d?hc=1` (outcome `r`), then `parser::comments(&doc)?`; only
when both succeed is `self.comments` assigned (wholesale replacement). -/
def Article.load_all_comments (r : Except Err CommentsDoc) (a : Article) :
    Except Err Unit × Article :=
  match r with
  | .error e => (.error e, a)
  | .ok doc =>
    match doc.comments with
    | .error e => (.error e, a)
    | .ok cs => (.ok (), { a with comments := cs })

/-- The concatenation `f start ++ f (start+1) ++ ... ++ f (start+k-1)` of
`k` consecutive page extractions — the shape of the links appended by a
fully successful run of the `load_image_list` loop. -/
def pagesJoin (f : Nat → List String) : Nat → Nat → List String
  | _, 0 => []
  | start, k + 1 => f start ++ pagesJoin f (start + 1) k

theorem usizeSub_one (n : Nat) (h1 : 1 ≤ n) (h2 : n < USIZE) : usizeSub n 1 = n - 1 := by
  have hU : USIZE = 18446744073709551616 := by norm_num [USIZE]
  rw [usizeSub, hU]
  rw [hU] at h2
  have hstep : n + (18446744073709551616 - 1 % 18446744073709551616)
      = (n - 1) + 18446744073709551616 := by omega
  rw [hstep, Nat.add_mod_right, Nat.mod_eq_of_lt (by omega)]

theorem loadPages_ok (env : Nat → Except Err PageDoc) (f : Nat → List String) :
    ∀ (k start : Nat) (links : List String),
      (∀ i, start ≤ i → i < start + k → fetchPage env i = Except.ok (f i)) →
      loadPages env links start k = (Except.ok (), links ++ pagesJoin f start k, k) := by
  intro k
  induction k with
  | zero => intro start links _; simp [loadPages, pagesJoin]
  | succ k ih =>
    intro start links h
    have h0 : fetchPage env start = Except.ok (f start) := h start le_rfl (by omega)
    simp only [loadPages, h0]
    rw [ih (start + 1) (links ++ f start) (fun i hi1 hi2 => h i (by omega) (by omega))]
    simp [pagesJoin, List.append_assoc]

theorem loadPages_fail (env : Nat → Except Err PageDoc) (f : Nat → List String) (e : Err) :
    ∀ (m start k : Nat) (links : List String),
      m < k →
      (∀ i, start ≤ i → i < start + m → fetchPage env i = Except.ok (f i)) →
      fetchPage env (start + m) = Except.error e →
      loadPages env links start k = (Except.error e, links ++ pagesJoin f start m, m + 1) := by
  intro m
  induction m with
  | zero =>
    intro start k links hmk _ hfail
    obtain ⟨k2, rfl⟩ : ∃ k2, k = k2 + 1 := ⟨k - 1, by omega⟩
    rw [Nat.add_zero] at hfail
    simp [loadPages, hfail, pagesJoin]
  | succ m ih =>
    intro start k links hmk hok hfail
    obtain ⟨k2, rfl⟩ : ∃ k2, k = k2 + 1 := ⟨k - 1, by omega⟩
    have h0 : fetchPage env start = Except.ok (f start) := hok start le_rfl (by omega)
    simp only [loadPages, h0]
    rw [ih (start + 1) k2 (links ++ f start) (by omega)
      (fun i hi1 hi2 => hok i (by omega) (by omega))
      (by rw [show start + 1 + m = start + (m + 1) by omega]; exact hfail)]
    simp [pagesJoin, List.append_assoc]

/-- C3 (amended): for every tracked count `n` with `1 ≤ n < 2^64` and page
size 25 or 40, the code's pages-needed computation `1 + (n - 1)/size`
equals `ceil(n/size)`; in particular `Page::len` yields
`ceil(known_result_count/25)`.  (The `n = 0` case of the original claim is
refuted separately: the subtraction wraps there.) -/
theorem pages_needed_ceil (n size : Nat) (hn : 1 ≤ n) (hw : n < USIZE)
    (hs : size = 25 ∨ size = 40) :
    pagesNeeded n size = (n + size - 1) / size ∧
    (∀ p : Page, p.results = some n → Page.len p = some ((n + 24) / 25)) ∧
    pageLenOf n = (n + 39) / 40 := by
  have hsub := usizeSub_one n hn hw
  have key : ∀ s : Nat, 0 < s → usizeSub n 1 / s + 1 = (n + s - 1) / s := by
    intro s hspos
    rw [hsub]
    rw [show n + s - 1 = (n - 1) + s by omega, Nat.add_div_right _ hspos]
  refine ⟨?_, ?_, ?_⟩
  · rw [pagesNeeded, Nat.add_comm]
    rcases hs with rfl | rfl
    · exact key 25 (by norm_num)
    · exact key 40 (by norm_num)
  · intro p hp
    rw [Page.len, hp, Option.map_some']
    rw [key 25 (by norm_num), show n + 25 - 1 = n + 24 by omega]
  · rw [pageLenOf, IMAGES_PER_PAGE, Nat.add_comm]
    rw [key 40 (by norm_num), show n + 40 - 1 = n + 39 by omega]

/-- Witness for C3's amended theorem at `n = 30`, `size = 25`
(`ceil(30/25) = 2`). -/
theorem pages_needed_ceil_witness :
    (1 ≤ 30 ∧ 30 < USIZE ∧ ((25 : Nat) = 25 ∨ (25 : Nat) = 40)) ∧
    (pagesNeeded 30 25 = (30 + 25 - 1) / 25 ∧
     (∀ p : Page, p.results = some 30 → Page.len p = some ((30 + 24) / 25)) ∧
     pageLenOf 30 = (30 + 39) / 40) :=
  ⟨⟨by decide, by decide, Or.inl rfl⟩,
   pages_needed_ceil 30 25 (by decide) (by decide) (Or.inl rfl)⟩

/-- C3 counterexample: with a tracked result count of 0 (the source's own
comment warns `self.results must not be 0`), the wrapping subtraction makes
`Page::len` yield `(2^64 - 1)/25 + 1 = 737869762948382065`, not 0 pages. -/
theorem page_len_zero_results_wraps :
    Page.len { client := 0, page := 0, results := some 0, query := "", task := none }
      = some 737869762948382065 ∧
    Page.len { client := 0, page := 0, results := some 0, query := "", task := none }
      ≠ some 0 := by
  constructor
  · decide
  · decide

/-- C6: `percent_encode` leaves every unreserved byte unchanged, and
renders every other byte `b < 256` as `'%'` followed by the two hex digits
of `b` (high nibble, low nibble), each drawn from the uppercase-hex
alphabet, the two digits recombining to exactly `b`. -/
theorem percent_encode_unreserved_and_hex (b : Nat) (hb : b < 256) :
    (isUnreserved b = true → percentEncodeByte b = [Char.ofNat b]) ∧
    (isUnreserved b = false →
      percentEncodeByte b = ['%', hexDigit (b / 16), hexDigit (b % 16)] ∧
      hexDigit (b / 16) ∈ hexUpperChars ∧ hexDigit (b % 16) ∈ hexUpperChars ∧
      16 * (b / 16) + b % 16 = b) := by
  have hmem : ∀ n : Nat, n < 16 → hexDigit n ∈ hexUpperChars := by decide
  constructor
  · intro h; simp [percentEncodeByte, h]
  · intro h
    refine ⟨by simp [percentEncodeByte, h], hmem _ ?_, hmem _ ?_, Nat.div_add_mod b 16⟩
    · exact Nat.div_lt_of_lt_mul (by omega)
    · exact Nat.mod_lt _ (by norm_num)

/-- Witness for C6 at the reserved byte 47 (`'/'`), plus the spec's
concrete examples: space → `%20`, `/` → `%2F`, the UTF-8 bytes `C3 A9` of
`é` → `%C3%A9`, and a string of unreserved bytes passing through unchanged. -/
theorem percent_encode_unreserved_and_hex_witness :
    ((47 : Nat) < 256 ∧
     ((isUnreserved 47 = true → percentEncodeByte 47 = [Char.ofNat 47]) ∧
      (isUnreserved 47 = false →
        percentEncodeByte 47 = ['%', hexDigit (47 / 16), hexDigit (47 % 16)] ∧
        hexDigit (47 / 16) ∈ hexUpperChars ∧ hexDigit (47 % 16) ∈ hexUpperChars ∧
        16 * (47 / 16) + 47 % 16 = 47))) ∧
    percent_encode [32] = "%20".toList ∧
    percent_encode [47] = "%2F".toList ∧
    percent_encode [195, 169] = "%C3%A9".toList ∧
    percent_encode [65, 90, 97, 122, 48, 57, 45, 95, 46, 126] = "AZaz09-_.~".toList :=
  ⟨⟨by decide, percent_encode_unreserved_and_hex 47 (by decide)⟩,
   by decide, by decide, by decide, by decide⟩

/-- C7: `Page::skip(n)` adds `n` to the page counter, discards the
in-flight task, changes no other field, and needs no fetch oracle at all
(it is a pure state update, so it performs no I/O); the next poll then
fetches exactly page `start + n`, and never page `start` when `0 < n`. -/
theorem skip_then_advance_fetches_shifted_page (p : Page) (n : Nat)
    (fetch : Nat → Except Err SearchDoc) :
    (p.skip n).page = p.page + n ∧
    (p.skip n).task = none ∧
    (p.skip n).client = p.client ∧
    (p.skip n).results = p.results ∧
    (p.skip n).query = p.query ∧
    (poll_next fetch (p.skip n)).2.2 = p.page + n ∧
    (0 < n → (poll_next fetch (p.skip n)).2.2 ≠ p.page) := by
  have hfp : (poll_next fetch (p.skip n)).2.2 = p.page + n := by
    rcases hf : fetch ((p.skip n).task.getD (p.skip n).page) with e | doc
    · simp [poll_next, Page.skip] at hf ⊢
      simp [hf]
    · rcases hs : doc.search_results with e | m <;>
        · simp [poll_next, Page.skip] at hf ⊢
          simp [hf, hs]
  refine ⟨rfl, rfl, rfl, rfl, rfl, hfp, ?_⟩
  intro hn
  rw [hfp]
  omega

/-- Witness for C7 at a sequence sitting on page 3 with a live task,
skipped by 2. -/
theorem skip_then_advance_fetches_shifted_page_witness :
    ((0 : Nat) < 2) ∧
    (Page.skip ⟨7, 3, some 9, "q", some 8⟩ 2).page = 3 + 2 ∧
    (Page.skip ⟨7, 3, some 9, "q", some 8⟩ 2).task = none ∧
    (poll_next (fun _ => Except.error (Err.transport 0))
       (Page.skip ⟨7, 3, some 9, "q", some 8⟩ 2)).2.2 = 3 + 2 ∧
    (poll_next (fun _ => Except.error (Err.transport 0))
       (Page.skip ⟨7, 3, some 9, "q", some 8⟩ 2)).2.2 ≠ 3 := by
  have h := skip_then_advance_fetches_shifted_page ⟨7, 3, some 9, "q", some 8⟩ 2
    (fun _ => Except.error (Err.transport 0))
  exact ⟨by decide, h.1, h.2.1, h.2.2.2.2.2.1, h.2.2.2.2.2.2 (by decide)⟩

/-- C4 counterexample: a successfully fetched document whose
`search_results` extraction fails.  The advancement yields `Some(Err(...))`
but the page counter has moved from 5 to 6 (the source increments `page`
before parsing), so the next advancement would fetch page 6, not retry 5. -/
theorem parse_failure_increments_page :
    (poll_next
        (fun _ => Except.ok { search_results := Except.error (Err.parse "search_results"),
                              article_list := Except.ok (some []) })
        (Page.new 0 5 "f_search=a")).1
      = some (Except.error (Err.parse "search_results")) ∧
    (poll_next
        (fun _ => Except.ok { search_results := Except.error (Err.parse "search_results"),
                              article_list := Except.ok (some []) })
        (Page.new 0 5 "f_search=a")).2.1.page = 6 :=
  ⟨rfl, rfl⟩

/-- C4 (amended): on a transport failure the advancement yields
`Some(Err(...))` and leaves the page counter unchanged, so the same page is
retried; on a parse failure of either stage — `search_results` or
`article_list` — it also yields `Some(Err(...))`, but the page counter has
already been incremented, so the next advancement fetches the following
page. -/
theorem advance_failure_position (fetch : Nat → Except Err SearchDoc) (p : Page)
    (hidle : p.task = none) :
    (∀ e, fetch p.page = Except.error e →
      (poll_next fetch p).1 = some (Except.error e) ∧
      (poll_next fetch p).2.1.page = p.page) ∧
    (∀ doc e, fetch p.page = Except.ok doc → doc.search_results = Except.error e →
      (poll_next fetch p).1 = some (Except.error e) ∧
      (poll_next fetch p).2.1.page = p.page + 1) ∧
    (∀ doc n e, fetch p.page = Except.ok doc → doc.search_results = Except.ok n →
      doc.article_list = Except.error e →
      (poll_next fetch p).1 = some (Except.error e) ∧
      (poll_next fetch p).2.1.page = p.page + 1) := by
  refine ⟨?_, ?_, ?_⟩
  · intro e hf
    constructor <;> simp [poll_next, hidle, hf]
  · intro doc e hf hs
    constructor <;> simp [poll_next, hidle, hf, hs]
  · intro doc n e hf hs hl
    constructor <;> simp [poll_next, hidle, hf, hs, hl, transposeEO]

/-- Witness for C4's amended theorem: a transport failure on page 4 leaves
the counter at 4, while an `article_list` parse failure on page 4 — the
other parse stage — yields the error with the counter already moved to 5. -/
theorem advance_failure_position_witness :
    ((Page.new 0 4 "q").task = none ∧
     (fun _ : Nat => (Except.error (Err.transport 2) : Except Err SearchDoc))
       (Page.new 0 4 "q").page = Except.error (Err.transport 2)) ∧
    ((poll_next (fun _ => Except.error (Err.transport 2)) (Page.new 0 4 "q")).1
       = some (Except.error (Err.transport 2)) ∧
     (poll_next (fun _ => Except.error (Err.transport 2)) (Page.new 0 4 "q")).2.1.page
       = (Page.new 0 4 "q").page) ∧
    ((poll_next (fun _ => Except.ok { search_results := Except.ok 30,
                                      article_list := Except.error (Err.parse "x") })
        (Page.new 0 4 "q")).1 = some (Except.error (Err.parse "x")) ∧
     (poll_next (fun _ => Except.ok { search_results := Except.ok 30,
                                      article_list := Except.error (Err.parse "x") })
        (Page.new 0 4 "q")).2.1.page = (Page.new 0 4 "q").page + 1) :=
  ⟨⟨rfl, rfl⟩,
   (advance_failure_position (fun _ => Except.error (Err.transport 2))
     (Page.new 0 4 "q") rfl).1 (Err.transport 2) rfl,
   (advance_failure_position
       (fun _ => Except.ok { search_results := Except.ok 30,
                             article_list := Except.error (Err.parse "x") })
       (Page.new 0 4 "q") rfl).2.2 _ 30 (Err.parse "x") rfl rfl rfl⟩

/-- C8 counterexample: a fresh sequence polls a document whose result count
parses as 30 but whose result list fails to parse.  The advancement is not
successful (it yields `Some(Err(...))`), yet the tracked total has been set
to 30 — refuting "None until the first successful advancement". -/
theorem results_set_on_failed_advance :
    (Page.new 0 0 "q").results = none ∧
    (poll_next
        (fun _ => Except.ok { search_results := Except.ok 30,
                              article_list := Except.error (Err.parse "article_list") })
        (Page.new 0 0 "q")).1 = some (Except.error (Err.parse "article_list")) ∧
    (poll_next
        (fun _ => Except.ok { search_results := Except.ok 30,
                              article_list := Except.error (Err.parse "article_list") })
        (Page.new 0 0 "q")).2.1.results = some 30 :=
  ⟨rfl, rfl, rfl⟩

/-- C8 (amended): a new sequence has no tracked count; a transport failure
or a failed count-parse leaves the tracked count unchanged; and every
advancement whose fetch and count-parse succeed — the successful ones
included — overwrites the tracked count with that page's extracted total
(last-writer-wins). -/
theorem results_none_then_refresh (fetch : Nat → Except Err SearchDoc) (p : Page) :
    (∀ c pg q, (Page.new c pg q).results = none) ∧
    (∀ e, fetch (p.task.getD p.page) = Except.error e →
       (poll_next fetch p).2.1.results = p.results) ∧
    (∀ doc e, fetch (p.task.getD p.page) = Except.ok doc →
       doc.search_results = Except.error e →
       (poll_next fetch p).2.1.results = p.results) ∧
    (∀ doc n, fetch (p.task.getD p.page) = Except.ok doc →
       doc.search_results = Except.ok n →
       (poll_next fetch p).2.1.results = some n) := by
  refine ⟨fun c pg q => rfl, ?_, ?_, ?_⟩
  · intro e hf; simp [poll_next, hf]
  · intro doc e hf hs; simp [poll_next, hf, hs]
  · intro doc n hf hs; simp [poll_next, hf, hs]

/-- Witness for C8's amended theorem: a successful advancement over a page
reporting 30 results sets the tracked count to 30. -/
theorem results_none_then_refresh_witness :
    ((fun _ : Nat => (Except.ok { search_results := Except.ok 30,
                                  article_list := Except.ok (some []) }
         : Except Err SearchDoc))
       ((Page.new 0 0 "q").task.getD (Page.new 0 0 "q").page)
       = Except.ok { search_results := Except.ok 30,
                     article_list := Except.ok (some []) } ∧
     ({ search_results := Except.ok 30,
        article_list := Except.ok (some []) } : SearchDoc).search_results
       = Except.ok 30) ∧
    (poll_next
        (fun _ => Except.ok { search_results := Except.ok 30,
                              article_list := Except.ok (some []) })
        (Page.new 0 0 "q")).2.1.results = some 30 :=
  ⟨⟨rfl, rfl⟩,
   (results_none_then_refresh
      (fun _ => Except.ok { search_results := Except.ok 30,
                            article_list := Except.ok (some []) })
      (Page.new 0 0 "q")).2.2.2 _ 30 rfl rfl⟩

/-- C9: as long as the `article_list` parser conforms to its interface
contract (a possibly-empty list or a parse error, never an absent list —
see `articleListWellFormed`), a completed poll never yields `None`: the
stream does not terminate on its own, and a page whose extractions succeed
yields `Some(Ok(list))`, the zero-result page yielding `Some(Ok([]))`. -/
theorem poll_next_never_none (fetch : Nat → Except Err SearchDoc) (p : Page)
    (hwf : ∀ i doc, fetch i = Except.ok doc → articleListWellFormed doc) :
    (poll_next fetch p).1 ≠ none ∧
    (∀ doc l, fetch (p.task.getD p.page) = Except.ok doc →
       (∃ n, doc.search_results = Except.ok n) →
       doc.article_list = Except.ok (some l) →
       (poll_next fetch p).1 = some (Except.ok l)) := by
  constructor
  · rcases hf : fetch (p.task.getD p.page) with e | doc
    · simp [poll_next, hf]
    · rcases hs : doc.search_results with e | n
      · simp [poll_next, hf, hs]
      · have hwfd := hwf _ _ hf
        rcases hl : doc.article_list with e | o
        · simp [poll_next, hf, hs, hl, transposeEO]
        · rcases o with _ | l
          · exact absurd hl hwfd
          · simp [poll_next, hf, hs, hl, transposeEO]
  · intro doc l hf hn hl
    obtain ⟨n, hs⟩ := hn
    simp [poll_next, hf, hs, hl, transposeEO]

/-- Witness for C9: a fresh sequence polling a well-formed zero-result page
(count 0, empty list) yields `Some(Ok([]))`, not `None`. -/
theorem poll_next_never_none_witness :
    (∀ i doc,
       (fun _ : Nat => (Except.ok { search_results := Except.ok 0,
                                    article_list := Except.ok (some []) }
          : Except Err SearchDoc)) i = Except.ok doc →
       articleListWellFormed doc) ∧
    (poll_next
        (fun _ => Except.ok { search_results := Except.ok 0,
                              article_list := Except.ok (some []) })
        (Page.new 0 0 "q")).1 ≠ none ∧
    (poll_next
        (fun _ => Except.ok { search_results := Except.ok 0,
                              article_list := Except.ok (some []) })
        (Page.new 0 0 "q")).1 = some (Except.ok []) := by
  have hwf : ∀ i doc,
      (fun _ : Nat => (Except.ok { search_results := Except.ok 0,
                                   article_list := Except.ok (some []) }
         : Except Err SearchDoc)) i = Except.ok doc →
      articleListWellFormed doc := by
    intro i doc h
    injection h with h
    subst h
    intro hc
    simp at hc
  have h := poll_next_never_none
    (fun _ => Except.ok { search_results := Except.ok 0,
                          article_list := Except.ok (some []) })
    (Page.new 0 0 "q") hwf
  exact ⟨hwf, h.1, h.2 _ [] rfl ⟨0, rfl⟩ rfl⟩

/-- C1 counterexample inputs: an article of 120 content pages
(`page_len = 3`, so sub-pages 1 and 2 are fetched) whose initial resolve
left one page-0 locator. -/
def c1Article : Article := { length := 120, links := ["a"], comments := [] }

/-- C1 counterexample oracle for the first call: sub-page 1 parses to
`["b"]`, sub-page 2 fails to parse. -/
def c1EnvA : Nat → Except Err PageDoc := fun i =>
  if i = 1 then Except.ok { image_list := Except.ok ["b"] }
  else Except.ok { image_list := Except.error (Err.parse "image_list") }

/-- C1 counterexample oracle for the retry: both sub-pages now succeed
(`["b"]` and `["c"]`). -/
def c1EnvB : Nat → Except Err PageDoc := fun i =>
  if i = 1 then Except.ok { image_list := Except.ok ["b"] }
  else Except.ok { image_list := Except.ok ["c"] }

/-- C1 counterexample: the failed first call correctly keeps the loaded
pages (`["a", "b"]`) and returns the error — but the retry does NOT
recompute from the current length: the loop restarts at sub-page 1, so the
already-appended `"b"` is appended again and the links end as
`["a", "b", "b", "c"]` with `"b"` duplicated. -/
theorem load_image_list_recall_duplicates :
    (Article.load_image_list c1EnvA c1Article).1 = Except.error (Err.parse "image_list") ∧
    (Article.load_image_list c1EnvA c1Article).2.1.links = ["a", "b"] ∧
    (Article.load_image_list c1EnvB
        (Article.load_image_list c1EnvA c1Article).2.1).2.1.links = ["a", "b", "b", "c"] ∧
    ((Article.load_image_list c1EnvB
        (Article.load_image_list c1EnvA c1Article).2.1).2.1.links.count "b") = 2 :=
  ⟨rfl, rfl, rfl, by decide⟩

/-- C1 (amended): a mid-sequence failure of `load_image_list` — sub-pages
`1..m` succeed, sub-page `1 + m` fails — returns the error and leaves the
links extended by exactly the successfully fetched pages, after `m + 1`
fetches.  (The original claim's no-duplication-on-re-call half is refuted
by `load_image_list_recall_duplicates`: the loop always restarts at
sub-page 1, only the fully-loaded state short-circuits.) -/
theorem load_image_list_failure_keeps_loaded_pages
    (env : Nat → Except Err PageDoc) (f : Nat → List String) (a : Article)
    (m : Nat) (e : Err)
    (hne : a.links.length ≠ a.length)
    (hm : m + 1 < pageLenOf a.length)
    (hok : ∀ i, 1 ≤ i → i < 1 + m → fetchPage env i = Except.ok (f i))
    (hfail : fetchPage env (1 + m) = Except.error e) :
    (Article.load_image_list env a).1 = Except.error e ∧
    (Article.load_image_list env a).2.1.links = a.links ++ pagesJoin f 1 m ∧
    (Article.load_image_list env a).2.2 = m + 1 := by
  have hlp := loadPages_fail env f e m 1 (pageLenOf a.length - 1) a.links (by omega)
    hok hfail
  refine ⟨?_, ?_, ?_⟩ <;> simp [Article.load_image_list, hne, hlp]

/-- C1 witness inputs: sub-page 1 parses to `["b"]`, sub-page 2 dies on
the transport. -/
def c1wEnv : Nat → Except Err PageDoc := fun i =>
  if i = 1 then Except.ok { image_list := Except.ok ["b"] }
  else Except.error (Err.transport 7)

/-- The per-page extraction the C1 witness oracle delivers. -/
def c1wF : Nat → List String := fun i => if i = 1 then ["b"] else []

/-- Witness for C1's amended theorem: failing on sub-page 2 of 2 leaves
`["a", "b"]` and returns the transport error after 2 fetches. -/
theorem load_image_list_failure_keeps_loaded_pages_witness :
    (c1Article.links.length ≠ c1Article.length ∧
     1 + 1 < pageLenOf c1Article.length ∧
     (∀ i, 1 ≤ i → i < 1 + 1 → fetchPage c1wEnv i = Except.ok (c1wF i)) ∧
     fetchPage c1wEnv (1 + 1) = Except.error (Err.transport 7)) ∧
    ((Article.load_image_list c1wEnv c1Article).1 = Except.error (Err.transport 7) ∧
     (Article.load_image_list c1wEnv c1Article).2.1.links
       = c1Article.links ++ pagesJoin c1wF 1 1 ∧
     (Article.load_image_list c1wEnv c1Article).2.2 = 1 + 1) := by
  have h1 : c1Article.links.length ≠ c1Article.length := by decide
  have h2 : 1 + 1 < pageLenOf c1Article.length := by decide
  have h3 : ∀ i, 1 ≤ i → i < 1 + 1 → fetchPage c1wEnv i = Except.ok (c1wF i) := by
    intro i hi1 hi2
    have hi : i = 1 := by omega
    subst hi
    rfl
  have h4 : fetchPage c1wEnv (1 + 1) = Except.error (Err.transport 7) := rfl
  exact ⟨⟨h1, h2, h3, h4⟩,
    load_image_list_failure_keeps_loaded_pages c1wEnv c1wF c1Article 1
      (Err.transport 7) h1 h2 h3 h4⟩

/-- C5: re-calling `load_image_list` is a no-op.  First half: on a fully
loaded article (`links.len() == meta.length`) the call succeeds, changes
nothing and performs zero fetches.  Second half: after a first call against
an oracle on which every needed sub-page parses and the pages jointly
supply exactly the missing locators (the site's interface contract), the
first call succeeds and a second call — against ANY oracle — returns
success, leaves the links unchanged and performs zero fetches. -/
theorem load_image_list_idempotent :
    (∀ (env : Nat → Except Err PageDoc) (a : Article),
       a.links.length = a.length →
       Article.load_image_list env a = (Except.ok (), a, 0)) ∧
    (∀ (env env2 : Nat → Except Err PageDoc) (a : Article) (f : Nat → List String),
       (∀ i, 1 ≤ i → i < pageLenOf a.length → fetchPage env i = Except.ok (f i)) →
       a.links.length + (pagesJoin f 1 (pageLenOf a.length - 1)).length = a.length →
       (Article.load_image_list env a).1 = Except.ok () ∧
       Article.load_image_list env2 (Article.load_image_list env a).2.1
         = (Except.ok (), (Article.load_image_list env a).2.1, 0)) := by
  have noop : ∀ (env : Nat → Except Err PageDoc) (a : Article),
      a.links.length = a.length →
      Article.load_image_list env a = (Except.ok (), a, 0) := by
    intro env a h
    simp [Article.load_image_list, h]
  refine ⟨noop, ?_⟩
  intro env env2 a f hok hsum
  by_cases heq : a.links.length = a.length
  · rw [noop env a heq]
    exact ⟨rfl, noop env2 a heq⟩
  · have hple : 1 ≤ pageLenOf a.length := by
      rw [pageLenOf]; exact Nat.le_add_right 1 _
    have hlp := loadPages_ok env f (pageLenOf a.length - 1) 1 a.links
      (fun i hi1 hi2 => hok i hi1 (by omega))
    have hcall : Article.load_image_list env a
        = (Except.ok (),
           { a with links := a.links ++ pagesJoin f 1 (pageLenOf a.length - 1) },
           pageLenOf a.length - 1) := by
      simp [Article.load_image_list, heq, hlp]
    rw [hcall]
    refine ⟨rfl, noop env2 _ ?_⟩
    simpa [List.length_append] using hsum

/-- C5 witness inputs: an article of 41 content pages whose resolve left
the 40 page-0 locators, so exactly one more sub-page (1 locator) is needed. -/
def c5Article : Article :=
  { length := 41, links := List.replicate 40 "x", comments := [] }

/-- C5 witness oracle for the first call: sub-page 1 parses to `["y"]`. -/
def c5Env : Nat → Except Err PageDoc := fun i =>
  if i = 1 then Except.ok { image_list := Except.ok ["y"] }
  else Except.error (Err.transport 0)

/-- C5 witness oracle for the second call: everything fails — showing the
second call consults nothing. -/
def c5Env2 : Nat → Except Err PageDoc := fun _ => Except.error (Err.transport 1)

/-- The per-page extraction the C5 witness oracle delivers. -/
def c5F : Nat → List String := fun i => if i = 1 then ["y"] else []

/-- Witness for C5: the first call completes the 41 locators; the second
call, against an all-failing oracle, is `Ok` with zero fetches and
unchanged links. -/
theorem load_image_list_idempotent_witness :
    ((∀ i, 1 ≤ i → i < pageLenOf c5Article.length →
        fetchPage c5Env i = Except.ok (c5F i)) ∧
     c5Article.links.length
       + (pagesJoin c5F 1 (pageLenOf c5Article.length - 1)).length
       = c5Article.length) ∧
    ((Article.load_image_list c5Env c5Article).1 = Except.ok () ∧
     Article.load_image_list c5Env2 (Article.load_image_list c5Env c5Article).2.1
       = (Except.ok (), (Article.load_image_list c5Env c5Article).2.1, 0)) := by
  have hok : ∀ i, 1 ≤ i → i < pageLenOf c5Article.length →
      fetchPage c5Env i = Except.ok (c5F i) := by
    intro i hi1 hi2
    rw [show pageLenOf c5Article.length = 2 from by decide] at hi2
    have hi : i = 1 := by omega
    subst hi
    rfl
  have hsum : c5Article.links.length
      + (pagesJoin c5F 1 (pageLenOf c5Article.length - 1)).length
      = c5Article.length := by decide
  exact ⟨⟨hok, hsum⟩,
    load_image_list_idempotent.2 c5Env c5Env2 c5Article c5F hok hsum⟩

/-- C2: `load_image` on any out-of-range index halts the process (the
source's `panic!`) before any network activity — the outcome is the
abnormal-termination marker with zero fetches, not a typed `IndexError`
returned to the caller. -/
theorem load_image_out_of_range_halts
    (getHtml : String → Except Err ViewerDoc) (getImage : String → Except Err (List Nat))
    (a : Article) (index : Nat) (h : a.links.length ≤ index) :
    Article.load_image getHtml getImage a index = (ImageOutcome.halted, 0) := by
  simp [Article.load_image, h]

/-- Witness for C2 at the failing input: an article with no loaded
locators, index 0. -/
theorem load_image_out_of_range_halts_witness :
    (({ length := 5, links := [], comments := [] } : Article).links.length ≤ 0) ∧
    Article.load_image (fun _ => Except.error (Err.transport 0))
        (fun _ => Except.error (Err.transport 0))
        { length := 5, links := [], comments := [] } 0
      = (ImageOutcome.halted, 0) :=
  ⟨by decide,
   load_image_out_of_range_halts (fun _ => Except.error (Err.transport 0))
     (fun _ => Except.error (Err.transport 0))
     { length := 5, links := [], comments := [] } 0 (by decide)⟩

/-- C10: `load_all_comments` is atomic on failure — a transport failure of
the `?hc=1` fetch or a failure of the comment parse leaves the article
(comments included) exactly as it was, and only when both succeed are the
comments replaced wholesale. -/
theorem load_all_comments_atomic (r : Except Err CommentsDoc) (a : Article) :
    (∀ e, r = Except.error e →
       Article.load_all_comments r a = (Except.error e, a)) ∧
    (∀ doc e, r = Except.ok doc → doc.comments = Except.error e →
       Article.load_all_comments r a = (Except.error e, a)) ∧
    (∀ doc cs, r = Except.ok doc → doc.comments = Except.ok cs →
       Article.load_all_comments r a = (Except.ok (), { a with comments := cs })) := by
  refine ⟨?_, ?_, ?_⟩
  · intro e h; subst h; rfl
  · intro doc e h hc; subst h; simp [Article.load_all_comments, hc]
  · intro doc cs h hc; subst h; simp [Article.load_all_comments, hc]

/-- C10 witness article: one already-loaded comment. -/
def c10Article : Article :=
  { length := 1, links := ["l"],
    comments := [{ posted := "2020", edited := none,
                   vote := some { score := 5, voters := [("u", 1)], omitted := 0 },
                   writer := "w", content := "hi" }] }

/-- Witness for C10: a transport failure and a parse failure both leave
`c10Article` intact. -/
theorem load_all_comments_atomic_witness :
    ((Except.error (Err.transport 3) : Except Err CommentsDoc)
       = Except.error (Err.transport 3) ∧
     ({ comments := Except.error (Err.parse "comments") } : CommentsDoc).comments
       = Except.error (Err.parse "comments")) ∧
    (Article.load_all_comments (Except.error (Err.transport 3)) c10Article
       = (Except.error (Err.transport 3), c10Article) ∧
     Article.load_all_comments
         (Except.ok { comments := Except.error (Err.parse "comments") }) c10Article
       = (Except.error (Err.parse "comments"), c10Article)) :=
  ⟨⟨rfl, rfl⟩,
   (load_all_comments_atomic (Except.error (Err.transport 3)) c10Article).1
     (Err.transport 3) rfl,
   (load_all_comments_atomic
       (Except.ok { comments := Except.error (Err.parse "comments") }) c10Article).2.1
     _ (Err.parse "comments") rfl rfl⟩
